import Mathlib

/-!
Shallow embedding of the synthetix deployment orchestrator and test harness
(src/deploy.py, src/run_tests.py, src/tests/*), with theorems settling the
spec claims about them.
-/

namespace Synthetix

/-- An execution receipt: success flag and resource cost (spec §3 ExecutionReceipt). -/
structure Receipt where
  success : Bool
  cost : Nat
deriving DecidableEq

/-- A constructor / call argument: a deployed address, an account identity, or a number. -/
inductive Arg
  | addr (a : Nat)
  | acct (s : String)
  | num (n : Nat)
deriving DecidableEq

/-- A deployed contract instance: artifact name and backend-assigned address. -/
structure Contract where
  name : String
  address : Nat
deriving DecidableEq

/-- The backend's response to one submitted operation: the address it assigns
(meaningful for deployments) and the finalized receipt. -/
structure StepOutcome where
  address : Nat
  receipt : Receipt
deriving DecidableEq

/-- Instrumentation of what was submitted to the backend, in submission order. -/
inductive TraceEntry
  | deployStep (name : String) (sender : String) (args : List Arg) (assigned : Nat)
  | linkSubmit (target : Nat) (op : String) (args : List Arg) (sender : String)
deriving DecidableEq

/-- The abstract execution backend: whether compilation succeeds, the stream of
outcomes it will hand back to successive submissions, and the submission trace. -/
structure Backend where
  compileOk : Bool
  outcomes : List StepOutcome
  trace : List TraceEntry
deriving DecidableEq

/-- Failures surfaced by the attempt wrapper, tagged with the step label
(spec §4.1: the wrapper re-raises after attaching the step name; it carries
no other data). -/
inductive DeployError
  | compileFailed (label : String)
  | stepFailed (label : String)
  | linkFailed (label : String)
  | backendUnavailable (label : String)
deriving DecidableEq

/- Module-level constants of src/deploy.py. -/

def UNIT : Nat := 10 ^ 18

def MASTER : String := "MASTER"

def OWNER : String := MASTER

def ORACLE : String := MASTER

def LIQUIDATION_BENEFICIARY : String := MASTER

def INITIAL_ETH_PRICE : Nat := 1000 * UNIT

/-- The deployment plan order fixed by the body of deploy_havven. -/
def deployment_plan : List String := ["Havven", "EtherNomin", "Court", "HavvenEscrow"]

/-- Modelled from the spec: `attempt(compile_contracts, [SOLIDITY_SOURCES], "Compiling contracts... ")`.
compile_contracts lives in utils.deployutils, which is not under src/; per spec §4.1/§6
it either yields the compiled artifact set or fails with a compilation error that the
attempt wrapper tags with the step label. -/
def attempt_compile (bk : Backend) : Except DeployError Unit :=
  if bk.compileOk then .ok () else .error (.compileFailed "Compiling contracts... ")

/-- Modelled from the spec: `attempt_deploy` lives in utils.deployutils, absent from src/.
Per spec §4.1-§4.2 it submits the constructor call, blocks for the finalized receipt,
returns the deployed instance with its receipt, and propagates a failure tagged with
the artifact name as step label. The backend consumes the next outcome of its stream
and the submission is recorded in the trace. -/
def attempt_deploy (bk : Backend) (name : String) (sender : String) (args : List Arg) :
    Except DeployError (Contract × Receipt) × Backend :=
  match bk.outcomes with
  | [] => (.error (.backendUnavailable name), bk)
  | o :: rest =>
    let bk' : Backend :=
      { bk with outcomes := rest,
                trace := bk.trace ++ [TraceEntry.deployStep name sender args o.address] }
    if o.receipt.success then
      (.ok (⟨name, o.address⟩, o.receipt), bk')
    else
      (.error (.stepFailed name), bk')

/-- A transaction handle returned by `.transact(...)`: submission happens here and
the eventual receipt is attached to the handle for later mining. -/
structure Tx where
  receipt : Receipt
deriving DecidableEq

/-- Embedding of `contract.functions.op(args).transact({'from': sender})`:
the operation is submitted to the backend immediately (recorded in the trace)
and a transaction handle is returned; its receipt is the next backend outcome. -/
def transact (bk : Backend) (target : Contract) (op : String) (args : List Arg)
    (sender : String) : Tx × Backend :=
  match bk.outcomes with
  | [] =>
    (⟨⟨false, 0⟩⟩,
     { bk with trace := bk.trace ++ [TraceEntry.linkSubmit target.address op args sender] })
  | o :: rest =>
    (⟨o.receipt⟩,
     { bk with outcomes := rest,
               trace := bk.trace ++ [TraceEntry.linkSubmit target.address op args sender] })

/-- Modelled from the spec: `mine_txs` lives in utils.deployutils, absent from src/.
Per spec §4.2/§5 it blocks on the already-submitted transactions' receipts in order
and a failed receipt is fatal; the surrounding attempt wrapper attaches its label. -/
def mine_txs (label : String) : List Tx → Except DeployError Unit
  | [] => .ok ()
  | t :: rest => if t.receipt.success then mine_txs label rest else .error (.linkFailed label)

/-- The value deploy_havven returns: exactly the six components of its return tuple. -/
structure DeployResult where
  havven_contract : Contract
  nomin_contract : Contract
  court_contract : Contract
  hvn_txr : Receipt
  nom_txr : Receipt
  court_txr : Receipt
deriving DecidableEq

/-- Embedding of deploy_havven (src/deploy.py lines 13-51): compile, deploy the four
contracts in order threading earlier addresses into later constructor arguments,
submit the three linking transactions, mine them, and return the tuple
(havven_contract, nomin_contract, court_contract, hvn_txr, nom_txr, court_txr).
The escrow contract and escrow receipt are bound in the source but not returned. -/
def deploy_havven (bk : Backend) : Except DeployError DeployResult × Backend :=
  match attempt_compile bk with
  | .error e => (.error e, bk)
  | .ok () =>
  match attempt_deploy bk "Havven" MASTER [Arg.acct OWNER] with
  | (.error e, bk) => (.error e, bk)
  | (.ok (havven_contract, hvn_txr), bk) =>
  match attempt_deploy bk "EtherNomin" MASTER
      [Arg.addr havven_contract.address, Arg.acct ORACLE,
       Arg.acct LIQUIDATION_BENEFICIARY, Arg.num INITIAL_ETH_PRICE, Arg.acct OWNER] with
  | (.error e, bk) => (.error e, bk)
  | (.ok (nomin_contract, nom_txr), bk) =>
  match attempt_deploy bk "Court" MASTER
      [Arg.addr havven_contract.address, Arg.addr nomin_contract.address,
       Arg.acct OWNER] with
  | (.error e, bk) => (.error e, bk)
  | (.ok (court_contract, court_txr), bk) =>
  match attempt_deploy bk "HavvenEscrow" MASTER
      [Arg.acct OWNER, Arg.addr havven_contract.address,
       Arg.addr nomin_contract.address] with
  | (.error e, bk) => (.error e, bk)
  | (.ok (escrow_contract, _escrow_txr), bk) =>
    let p1 := transact bk havven_contract "setNomin" [Arg.addr nomin_contract.address] MASTER
    let bk := p1.2
    let p2 := transact bk havven_contract "setEscrow" [Arg.addr escrow_contract.address] MASTER
    let bk := p2.2
    let p3 := transact bk nomin_contract "setCourt" [Arg.addr court_contract.address] MASTER
    let bk := p3.2
    match mine_txs "Linking contracts... " [p1.1, p2.1, p3.1] with
    | .error e => (.error e, bk)
    | .ok () =>
      (.ok { havven_contract := havven_contract, nomin_contract := nomin_contract,
             court_contract := court_contract, hvn_txr := hvn_txr,
             nom_txr := nom_txr, court_txr := court_txr }, bk)

/-- The addresses present in deploy_havven's return value. -/
def returnedAddresses (r : DeployResult) : List Nat :=
  [r.havven_contract.address, r.nomin_contract.address, r.court_contract.address]

/-- The receipts present in deploy_havven's return value. -/
def returnedReceipts (r : DeployResult) : List Receipt :=
  [r.hvn_txr, r.nom_txr, r.court_txr]

/-- The artifact names of the deployment steps recorded in a trace, in order. -/
def deployedNames (tr : List TraceEntry) : List String :=
  tr.filterMap fun e =>
    match e with
    | .deployStep n _ _ _ => some n
    | .linkSubmit _ _ _ _ => none

/-- The address assigned to the first deployment step with the given artifact name. -/
def deployedAddrOf (tr : List TraceEntry) (n : String) : Option Nat :=
  (tr.filterMap fun e =>
    match e with
    | .deployStep m _ _ a => if m = n then some a else none
    | .linkSubmit _ _ _ _ => none).head?

/-- The operation names of the link submissions recorded in a trace, in order. -/
def linkOps (tr : List TraceEntry) : List String :=
  tr.filterMap fun e =>
    match e with
    | .deployStep _ _ _ _ => none
    | .linkSubmit _ op _ _ => some op

/-- Addresses of a returned Except value (empty on error). -/
def resultAddresses : Except DeployError DeployResult → List Nat
  | .ok r => returnedAddresses r
  | .error _ => []

/-- Receipts of a returned Except value (empty on error). -/
def resultReceipts : Except DeployError DeployResult → List Receipt
  | .ok r => returnedReceipts r
  | .error _ => []

/-- A concrete backend on which every step succeeds: the four deployments are
assigned addresses 1..4 with receipts of distinct costs, then the three linking
transactions succeed. -/
def bkAllOk : Backend :=
  { compileOk := true,
    outcomes := [⟨1, ⟨true, 10⟩⟩, ⟨2, ⟨true, 20⟩⟩, ⟨3, ⟨true, 30⟩⟩, ⟨4, ⟨true, 40⟩⟩,
                 ⟨0, ⟨true, 51⟩⟩, ⟨0, ⟨true, 52⟩⟩, ⟨0, ⟨true, 53⟩⟩],
    trace := [] }

/-- A concrete backend whose second deployment step (EtherNomin) fails. -/
def bkFailNomin : Backend :=
  { compileOk := true,
    outcomes := [⟨1, ⟨true, 10⟩⟩, ⟨2, ⟨false, 20⟩⟩, ⟨3, ⟨true, 30⟩⟩, ⟨4, ⟨true, 40⟩⟩,
                 ⟨0, ⟨true, 51⟩⟩, ⟨0, ⟨true, 52⟩⟩, ⟨0, ⟨true, 53⟩⟩],
    trace := [] }

/-- Like bkFailNomin but the Havven step is assigned a different address (99). -/
def bkFailNomin' : Backend :=
  { compileOk := true,
    outcomes := [⟨99, ⟨true, 10⟩⟩, ⟨2, ⟨false, 20⟩⟩, ⟨3, ⟨true, 30⟩⟩, ⟨4, ⟨true, 40⟩⟩,
                 ⟨0, ⟨true, 51⟩⟩, ⟨0, ⟨true, 52⟩⟩, ⟨0, ⟨true, 53⟩⟩],
    trace := [] }

/-- A concrete backend on which all four deployments succeed but the first
linking transaction's receipt signals failure. -/
def bkFailLink1 : Backend :=
  { compileOk := true,
    outcomes := [⟨1, ⟨true, 10⟩⟩, ⟨2, ⟨true, 20⟩⟩, ⟨3, ⟨true, 30⟩⟩, ⟨4, ⟨true, 40⟩⟩,
                 ⟨0, ⟨false, 51⟩⟩, ⟨0, ⟨true, 52⟩⟩, ⟨0, ⟨true, 53⟩⟩],
    trace := [] }

/-- The outermost address arguments of an argument list. -/
def addrArgs (args : List Arg) : List Nat :=
  args.filterMap fun a =>
    match a with
    | .addr x => some x
    | .acct _ => none
    | .num _ => none

/-- The (constructor arguments, assigned address) pairs of the deployment steps
recorded in a trace, in execution order. -/
def deploySteps (tr : List TraceEntry) : List (List Arg × Nat) :=
  tr.filterMap fun e =>
    match e with
    | .deployStep _ _ args a => some (args, a)
    | .linkSubmit _ _ _ _ => none

/-- Given the addresses already assigned, checks that every deployment step's
address arguments reference only addresses assigned by strictly earlier steps. -/
def depsAvailable (seen : List Nat) : List (List Arg × Nat) → Bool
  | [] => true
  | (args, a) :: rest => (addrArgs args).all seen.contains && depsAvailable (a :: seen) rest


/-- Outcome of one test body: pass when every assertion holds, fail when an
assertion fails or the body raises. -/
inductive TOutcome
  | pass
  | fail
deriving DecidableEq

/-- The harness-visible backend state around one test case: the abstract global
chain state, the snapshot handle stored in self.snapshot (the handle captures
the checkpointed chain state), and counters instrumenting how many checkpoints
were taken and restored. -/
structure HarnessState where
  chain : Nat
  snapshot : Option Nat
  snapsTaken : Nat
  restoresDone : Nat
deriving DecidableEq

/-- A unittest test unit: setUp, the test body (which reads and mutates the chain
state and passes or fails), and tearDown. -/
structure TestUnit where
  setUp : HarnessState → HarnessState
  body : Nat → Nat × TOutcome
  tearDown : HarnessState → HarnessState

/-- Execution of one test unit under unittest: setUp, then the body, then
tearDown. unittest runs tearDown on every exit path of the body, including
test-body failure, whenever setUp succeeded. -/
def runUnit (u : TestUnit) (s : HarnessState) : HarnessState × TOutcome :=
  let s1 := u.setUp s
  let br := u.body s1.chain
  (u.tearDown { s1 with chain := br.1 }, br.2)

/-- Embedding of TestTokenState (src/tests/test_TokenState.py lines 27-31): setUp
stores take_snapshot() in self.snapshot and tearDown calls
restore_snapshot(self.snapshot). The two helpers live in utils.deployutils,
absent from src/; per the spec they checkpoint the global backend state and
restore exactly the checkpointed state, consuming the handle. -/
def tokenStateUnit (body : Nat → Nat × TOutcome) : TestUnit :=
  { setUp := fun s =>
      { s with snapshot := some s.chain, snapsTaken := s.snapsTaken + 1 },
    body := body,
    tearDown := fun s =>
      { s with chain := s.snapshot.getD s.chain, snapshot := none,
               restoresDone := s.restoresDone + 1 } }

/-- Embedding of TestERC20FeeToken (src/tests/test_ERC20FeeToken.py lines 14-24):
the class defines no setUp and no tearDown, so the unittest defaults (no-ops)
run around every test body; no checkpoint is taken and nothing is restored. -/
def erc20FeeTokenUnit (body : Nat → Nat × TOutcome) : TestUnit :=
  { setUp := fun s => s, body := body, tearDown := fun s => s }

/-- The chain-state mutation performed by TestERC20FeeToken.test_transfer: it
mines a transfer transaction, moving the backend to a new chain state; the test
passes. Modelled abstractly as a state bump. -/
def transferBody : Nat → Nat × TOutcome := fun c => (c + 1, TOutcome.pass)

/-- A fresh harness state at abstract chain state 0. -/
def freshHarness : HarnessState := ⟨0, none, 0, 0⟩

/-- A ValueError payload raised by the backend adapter: error.args[0]['message']
and error.args[0]['code']. -/
structure RpcError where
  message : String
  code : Int
deriving DecidableEq

/-- The observable outcome of invoking an operation against the backend: either a
decoded value / finalized receipt, or a raised ValueError carrying the backend's
error payload. -/
inductive CallOutcome (α : Type)
  | ok (value : α)
  | valueError (e : RpcError)
deriving DecidableEq

/-- Whether the pattern occurs at the head of the text. -/
def beginsWith : List Char → List Char → Bool
  | [], _ => true
  | _ :: _, [] => false
  | a :: as, b :: bs => a == b && beginsWith as bs

/-- Whether the pattern occurs anywhere in the text. -/
def hasSub (needle : List Char) : List Char → Bool
  | [] => beginsWith needle []
  | c :: t => beginsWith needle (c :: t) || hasSub needle t

/-- Python's substring containment test `needle in hay` on strings. -/
def strContains (hay needle : String) : Bool := hasSub needle.toList hay.toList

/-- Embedding of assertCallReverts (src/tests/test_utils.py lines 4-8): the
assertion passes iff function.call() raised a ValueError whose payload message
contains "revert" and whose payload code equals -32000. -/
def assertCallReverts (r : CallOutcome α) : Bool :=
  match r with
  | .ok _ => false
  | .valueError e => strContains e.message "revert" && (e.code == -32000)

/-- Embedding of assertTransactionReverts (src/tests/test_utils.py lines 10-14):
applied to the outcome of mine_tx(function.transact({'from': caller, 'gas': gas})),
the assertion passes iff that raised a ValueError whose payload message contains
"revert" and whose payload code equals -32000. -/
def assertTransactionReverts (r : CallOutcome Receipt) : Bool :=
  match r with
  | .ok _ => false
  | .valueError e => strContains e.message "revert" && (e.code == -32000)

/-- Modelled from the spec: the backend's standardized rejection signal for
rejection-by-program-logic (spec §6) — the error payload carries the "revert"
marker in its message together with code -32000; timeouts and malformed calls
surface with other codes or messages. -/
def standardizedLogicRejection (e : RpcError) : Bool :=
  strContains e.message "revert" && (e.code == -32000)

/-- A decoded value returned by a view call. -/
inductive Val
  | num (n : Nat)
  | str (s : String)
  | account (a : String)
deriving DecidableEq

/-- The self.name attribute of the facade: either the label string passed to the
constructor or the rebound name() view lambda. -/
inductive NameAttr
  | label (s : String)
  | nameViewLambda
deriving DecidableEq

/-- One entry of the chain's submission log: target address, operation, arguments
and submitting identity. -/
structure SubmitEntry where
  target : Nat
  op : String
  args : List Arg
  sender : String
deriving DecidableEq

/-- One entry of the mine_tx log: the finalized receipt together with the two
diagnostic arguments mine_tx was given (the operation label and the facade's
name attribute). -/
structure MinedEntry where
  receipt : Receipt
  opLabel : String
  nameArg : NameAttr
deriving DecidableEq

/-- The chain backend seen by the facade: decoded view-call results, the receipt
the backend finalizes for the n-th submitted transaction, and logs of
submissions and mined transactions. -/
structure Chain where
  viewFn : Nat → String → List Arg → Val
  receiptFor : Nat → Receipt
  submitted : List SubmitEntry
  mined : List MinedEntry

/-- A transaction hash handle: the index of the submission it refers to. -/
structure TxHash where
  idx : Nat
deriving DecidableEq

/-- Embedding of contract.functions.op(args).transact({'from': sender}) on the
facade path: the operation is submitted under the given identity immediately and
a transaction hash handle is returned. -/
def facadeTransact (w : Chain) (target : Nat) (op : String) (args : List Arg)
    (sender : String) : TxHash × Chain :=
  (⟨w.submitted.length⟩,
   { w with submitted := w.submitted ++ [⟨target, op, args, sender⟩] })

/-- Modelled from the spec: mine_tx lives in utils.deployutils, absent from src/.
Per spec §4.3/§5 it blocks until the submitted transaction's receipt finalizes
and returns that receipt; its remaining arguments are diagnostic labels (the
operation name and the facade's name attribute), recorded in the mined log. -/
def mine_tx (w : Chain) (t : TxHash) (opLabel : String) (nameArg : NameAttr) :
    Receipt × Chain :=
  let r := w.receiptFor t.idx
  (r, { w with mined := w.mined ++ [⟨r, opLabel, nameArg⟩] })

/-- The attributes of ExternStateFeeTokenInterface after __init__ completes
(src/tests/contract_interfaces/extern_state_fee_token_interface.py). View
attributes are callables on the chain taking no submitting identity; mutating
attributes take the submitting identity first, submit the operation, block for
the receipt via mine_tx and return it. -/
structure ExternStateFeeTokenInterface where
  contract : Contract
  name : NameAttr
  owner : Chain → Val
  totalSupply : Chain → Val
  state : Chain → Val
  symbol : Chain → Val
  balanceOf : String → Chain → Val
  allowance : String → String → Chain → Val
  transferFeeRate : Chain → Val
  feePool : Chain → Val
  feeAuthority : Chain → Val
  transferFeeIncurred : Nat → Chain → Val
  transferPlusFee : Nat → Chain → Val
  priceToSpend : Nat → Chain → Val
  nominateOwner : String → String → Chain → Receipt × Chain
  acceptOwnership : String → Chain → Receipt × Chain
  setTransferFeeRate : String → Nat → Chain → Receipt × Chain
  setFeeAuthority : String → String → Chain → Receipt × Chain
  setState : String → String → Chain → Receipt × Chain
  transfer : String → String → Nat → Chain → Receipt × Chain
  approve : String → String → Nat → Chain → Receipt × Chain
  transferFrom : String → String → String → Nat → Chain → Receipt × Chain
  withdrawFee : String → String → Nat → Chain → Receipt × Chain
  donateToFeePool : String → Nat → Chain → Receipt × Chain

/-- Invoking the facade's name attribute as Python would: a string label is not
callable, while the rebound lambda performs the name() view call. -/
def NameAttr.invoke (n : NameAttr) (c : Contract) (w : Chain) : Option Val :=
  match n with
  | .label _ => none
  | .nameViewLambda => some (w.viewFn c.address "name" [])

/-- Embedding of ExternStateFeeTokenInterface.__init__: the assignments run in
source order, so self.name is first bound to the label string and then rebound
to the name() view lambda — the second assignment overwrites the first. The
mutating lambdas read self.name when invoked, i.e. after construction has
completed, so they see the final (lambda) binding, modelled by nameAfterRebind. -/
def mkExternStateFeeTokenInterface (contract : Contract) (nameLabel : String) :
    ExternStateFeeTokenInterface :=
  let nameFirstBinding := NameAttr.label nameLabel
  let nameAfterRebind := NameAttr.nameViewLambda
  { contract := contract,
    name := if True then nameAfterRebind else nameFirstBinding,
    owner := fun w => w.viewFn contract.address "owner" [],
    totalSupply := fun w => w.viewFn contract.address "totalSupply" [],
    state := fun w => w.viewFn contract.address "state" [],
    symbol := fun w => w.viewFn contract.address "symbol" [],
    balanceOf := fun account w => w.viewFn contract.address "balanceOf" [Arg.acct account],
    allowance := fun account spender w =>
      w.viewFn contract.address "allowance" [Arg.acct account, Arg.acct spender],
    transferFeeRate := fun w => w.viewFn contract.address "transferFeeRate" [],
    feePool := fun w => w.viewFn contract.address "feePool" [],
    feeAuthority := fun w => w.viewFn contract.address "feeAuthority" [],
    transferFeeIncurred := fun value w =>
      w.viewFn contract.address "transferFeeIncurred" [Arg.num value],
    transferPlusFee := fun value w =>
      w.viewFn contract.address "transferPlusFee" [Arg.num value],
    priceToSpend := fun value w =>
      w.viewFn contract.address "priceToSpend" [Arg.num value],
    nominateOwner := fun sender address w =>
      let p := facadeTransact w contract.address "nominateOwner" [Arg.acct address] sender
      mine_tx p.2 p.1 "nominateOwner" nameAfterRebind,
    acceptOwnership := fun sender w =>
      let p := facadeTransact w contract.address "acceptOwnership" [] sender
      mine_tx p.2 p.1 "acceptOwnership" nameAfterRebind,
    setTransferFeeRate := fun sender new_fee_rate w =>
      let p := facadeTransact w contract.address "setTransferFeeRate"
        [Arg.num new_fee_rate] sender
      mine_tx p.2 p.1 "setTransferFeeRate" nameAfterRebind,
    setFeeAuthority := fun sender new_fee_authority w =>
      let p := facadeTransact w contract.address "setFeeAuthority"
        [Arg.acct new_fee_authority] sender
      mine_tx p.2 p.1 "setFeeAuthority" nameAfterRebind,
    setState := fun sender new_state w =>
      let p := facadeTransact w contract.address "setState" [Arg.acct new_state] sender
      mine_tx p.2 p.1 "setState" nameAfterRebind,
    transfer := fun sender toAcct value w =>
      let p := facadeTransact w contract.address "transfer"
        [Arg.acct toAcct, Arg.num value] sender
      mine_tx p.2 p.1 "transfer" nameAfterRebind,
    approve := fun sender spender value w =>
      let p := facadeTransact w contract.address "approve"
        [Arg.acct spender, Arg.num value] sender
      mine_tx p.2 p.1 "approve" nameAfterRebind,
    transferFrom := fun sender frm toAcct value w =>
      let p := facadeTransact w contract.address "transferFrom"
        [Arg.acct frm, Arg.acct toAcct, Arg.num value] sender
      mine_tx p.2 p.1 "transferFrom" nameAfterRebind,
    withdrawFee := fun sender account value w =>
      let p := facadeTransact w contract.address "withdrawFee"
        [Arg.acct account, Arg.num value] sender
      mine_tx p.2 p.1 "withdrawFee" nameAfterRebind,
    donateToFeePool := fun sender value w =>
      let p := facadeTransact w contract.address "donateToFeePool"
        [Arg.num value] sender
      mine_tx p.2 p.1 "donateToFeePool" nameAfterRebind }

/-- A test, tagged with the module it was loaded from and its own name. -/
structure Test where
  moduleName : String
  testName : String
deriving DecidableEq

/-- Embedding of the suite-assembly loop of src/run_tests.py lines 27-31: iterate
the test-settings mapping and, for each entry whose value is truthy, add the
tests loaded from the correspondingly named module of the tests package. -/
def buildSuite (settings : List (String × Bool)) (loadTests : String → List Test) :
    List Test :=
  settings.foldl (fun suite item => if item.2 then suite ++ loadTests item.1 else suite) []

/-- The observable outcome of the top-level runner process. -/
inductive ProcessExit
  | code (n : Nat)
  | uncaught (msg : String)
deriving DecidableEq

/-- The execution-environment inputs of src/run_tests.py: whether launching
ganache-cli raises, the test-settings mapping, the module-to-tests loader, and
the result of TextTestRunner(verbosity=2).run on the assembled suite — either
an uncaught fatal error or the wasSuccessful() flag of the result. -/
structure RunConfig where
  ganacheLaunchOk : Bool
  settings : List (String × Bool)
  loadTests : String → List Test
  runSuite : List Test → Except String Bool

/-- Modelled from the spec: utils.generalutils.ganache_error_message, absent from
src/ — the message of the exception raised when launching ganache fails. -/
def ganache_error_message : String := "Could not launch ganache-cli"

/-- Embedding of the __main__ block of src/run_tests.py: launch ganache (raising
ganache_error_message on failure), assemble the suite from the settings, run it,
and sys.exit(0) iff result.wasSuccessful() else sys.exit(1). An uncaught
exception terminates the process abnormally. -/
def run_tests_main (cfg : RunConfig) : ProcessExit :=
  if cfg.ganacheLaunchOk then
    match cfg.runSuite (buildSuite cfg.settings cfg.loadTests) with
    | .error e => .uncaught e
    | .ok wasSuccessful => .code (if wasSuccessful then 0 else 1)
  else
    .uncaught ganache_error_message

/-- The numeric process exit status: an uncaught Python exception terminates the
process with status 1. -/
def exitStatus : ProcessExit → Nat
  | .code n => n
  | .uncaught _ => 1


/-- C1: the claim says deploy returns, for every artifact deployed by the plan, its
instance and receipt. Counterexample: on a fully successful run, HavvenEscrow is
deployed (at address 4, with receipt cost 40) but neither its address nor its
receipt appears in deploy_havven's return value. -/
theorem C1_counterexample_escrow_omitted :
    (deploy_havven bkAllOk).1.isOk = true ∧
    "HavvenEscrow" ∈ deployedNames (deploy_havven bkAllOk).2.trace ∧
    deployedAddrOf (deploy_havven bkAllOk).2.trace "HavvenEscrow" = some 4 ∧
    4 ∉ resultAddresses (deploy_havven bkAllOk).1 ∧
    (⟨true, 40⟩ : Receipt) ∉ resultReceipts (deploy_havven bkAllOk).1 := by
  refine ⟨rfl, ?_, rfl, ?_, ?_⟩ <;> decide

/-- C1 (amended): on a completed run, deploy_havven returns the instances and raw
receipts of the first three plan steps only — Havven, EtherNomin and Court. All
four artifacts of the plan are deployed, but the HavvenEscrow instance and its
receipt are omitted from the return value. -/
theorem C1_amended_returns_first_three_only
    (bk : Backend) (o1 o2 o3 o4 l1 l2 l3 : StepOutcome) (rest : List StepOutcome)
    (hc : bk.compileOk = true)
    (ho : bk.outcomes = [o1, o2, o3, o4, l1, l2, l3] ++ rest)
    (h1 : o1.receipt.success = true) (h2 : o2.receipt.success = true)
    (h3 : o3.receipt.success = true) (h4 : o4.receipt.success = true)
    (hl1 : l1.receipt.success = true) (hl2 : l2.receipt.success = true)
    (hl3 : l3.receipt.success = true)
    (hd : o4.address ∉ [o1.address, o2.address, o3.address])
    (hr : o4.receipt ∉ [o1.receipt, o2.receipt, o3.receipt]) :
    (deploy_havven bk).1 =
      .ok { havven_contract := ⟨"Havven", o1.address⟩,
            nomin_contract := ⟨"EtherNomin", o2.address⟩,
            court_contract := ⟨"Court", o3.address⟩,
            hvn_txr := o1.receipt, nom_txr := o2.receipt, court_txr := o3.receipt } ∧
    deployedNames (deploy_havven bk).2.trace =
      deployedNames bk.trace ++ deployment_plan ∧
    o4.address ∉ resultAddresses (deploy_havven bk).1 ∧
    o4.receipt ∉ resultReceipts (deploy_havven bk).1 := by
  obtain ⟨cOk, outs, tr⟩ := bk
  simp only at hc ho
  subst hc ho
  simp [deploy_havven, attempt_compile, attempt_deploy, transact, mine_txs,
        h1, h2, h3, h4, hl1, hl2, hl3, deployedNames, deployment_plan,
        resultAddresses, resultReceipts, returnedAddresses, returnedReceipts] at hd hr ⊢
  exact ⟨hd, hr⟩

/-- Witness for C1 (amended) at the concrete all-success backend. -/
theorem C1_amended_witness :
    (deploy_havven bkAllOk).1 =
      .ok { havven_contract := ⟨"Havven", 1⟩, nomin_contract := ⟨"EtherNomin", 2⟩,
            court_contract := ⟨"Court", 3⟩, hvn_txr := ⟨true, 10⟩,
            nom_txr := ⟨true, 20⟩, court_txr := ⟨true, 30⟩ } ∧
    deployedNames (deploy_havven bkAllOk).2.trace =
      deployedNames bkAllOk.trace ++ deployment_plan ∧
    4 ∉ resultAddresses (deploy_havven bkAllOk).1 ∧
    (⟨true, 40⟩ : Receipt) ∉ resultReceipts (deploy_havven bkAllOk).1 :=
  C1_amended_returns_first_three_only bkAllOk
    ⟨1, ⟨true, 10⟩⟩ ⟨2, ⟨true, 20⟩⟩ ⟨3, ⟨true, 30⟩⟩ ⟨4, ⟨true, 40⟩⟩
    ⟨0, ⟨true, 51⟩⟩ ⟨0, ⟨true, 52⟩⟩ ⟨0, ⟨true, 53⟩⟩ []
    rfl rfl rfl rfl rfl rfl rfl rfl rfl (by decide) (by decide)

/-- C2: the claim says each link operation's receipt is checked before the
orchestrator proceeds to the next link operation, halting before acting on later
operations when a receipt fails. Counterexample: on bkFailLink1 the first link
receipt (setNomin) signals failure, yet the later link operations setEscrow and
setCourt have already been submitted when the failure surfaces. -/
theorem C2_counterexample_links_submitted_before_check :
    (deploy_havven bkFailLink1).1 = .error (.linkFailed "Linking contracts... ") ∧
    linkOps (deploy_havven bkFailLink1).2.trace = ["setNomin", "setEscrow", "setCourt"] :=
  ⟨rfl, by decide⟩

/-- C2 (amended): a failed link receipt is fatal — the orchestrator halts with a
linking failure and never silently continues — but receipts are checked only in a
batch after all link operations of the linking phase have been submitted, so the
later link operations have already been submitted when the first failure is seen. -/
theorem C2_amended_fatal_after_batch_submit
    (bk : Backend) (o1 o2 o3 o4 l1 l2 l3 : StepOutcome) (rest : List StepOutcome)
    (hc : bk.compileOk = true)
    (ho : bk.outcomes = [o1, o2, o3, o4, l1, l2, l3] ++ rest)
    (h1 : o1.receipt.success = true) (h2 : o2.receipt.success = true)
    (h3 : o3.receipt.success = true) (h4 : o4.receipt.success = true)
    (hl1 : l1.receipt.success = false) :
    (deploy_havven bk).1 = .error (.linkFailed "Linking contracts... ") ∧
    linkOps (deploy_havven bk).2.trace =
      linkOps bk.trace ++ ["setNomin", "setEscrow", "setCourt"] := by
  obtain ⟨cOk, outs, tr⟩ := bk
  simp only at hc ho
  subst hc ho
  simp [deploy_havven, attempt_compile, attempt_deploy, transact, mine_txs,
        h1, h2, h3, h4, hl1, linkOps]

/-- Witness for C2 (amended) at the concrete failing-first-link backend. -/
theorem C2_amended_witness :
    (deploy_havven bkFailLink1).1 = .error (.linkFailed "Linking contracts... ") ∧
    linkOps (deploy_havven bkFailLink1).2.trace =
      linkOps bkFailLink1.trace ++ ["setNomin", "setEscrow", "setCourt"] :=
  C2_amended_fatal_after_batch_submit bkFailLink1
    ⟨1, ⟨true, 10⟩⟩ ⟨2, ⟨true, 20⟩⟩ ⟨3, ⟨true, 30⟩⟩ ⟨4, ⟨true, 40⟩⟩
    ⟨0, ⟨false, 51⟩⟩ ⟨0, ⟨true, 52⟩⟩ ⟨0, ⟨true, 53⟩⟩ []
    rfl rfl rfl rfl rfl rfl rfl

/-- C4: the claim says the diagnostic returned on a step-i failure contains exactly
the instances of the first i-1 successful steps. Counterexample: with step 2
(EtherNomin) failing, two backends whose step-1 (Havven) instances differ
(addresses 1 and 99) yield the very same diagnostic, so the diagnostic cannot
contain the first successful instance. -/
theorem C4_counterexample_diag_lacks_instances :
    (deploy_havven bkFailNomin).1 = .error (.stepFailed "EtherNomin") ∧
    (deploy_havven bkFailNomin').1 = (deploy_havven bkFailNomin).1 ∧
    deployedAddrOf (deploy_havven bkFailNomin).2.trace "Havven" = some 1 ∧
    deployedAddrOf (deploy_havven bkFailNomin').2.trace "Havven" = some 99 :=
  ⟨rfl, rfl, by decide, by decide⟩

/-- C4 (amended): if deployment step i fails, no step i+1..n is attempted and no
linking operation is submitted; the failure propagates as an error naming the
failing step, but that diagnostic is a fixed label and does not include the
earlier successful instances. Stated for each of the four plan steps. -/
theorem C4_amended_halt_without_partial_instances
    (bk : Backend) (o1 o2 o3 o4 : StepOutcome) (rest : List StepOutcome)
    (hc : bk.compileOk = true)
    (ho : bk.outcomes = [o1, o2, o3, o4] ++ rest) :
    (o1.receipt.success = false →
      (deploy_havven bk).1 = .error (.stepFailed "Havven") ∧
      deployedNames (deploy_havven bk).2.trace = deployedNames bk.trace ++ ["Havven"] ∧
      linkOps (deploy_havven bk).2.trace = linkOps bk.trace) ∧
    (o1.receipt.success = true → o2.receipt.success = false →
      (deploy_havven bk).1 = .error (.stepFailed "EtherNomin") ∧
      deployedNames (deploy_havven bk).2.trace =
        deployedNames bk.trace ++ ["Havven", "EtherNomin"] ∧
      linkOps (deploy_havven bk).2.trace = linkOps bk.trace) ∧
    (o1.receipt.success = true → o2.receipt.success = true → o3.receipt.success = false →
      (deploy_havven bk).1 = .error (.stepFailed "Court") ∧
      deployedNames (deploy_havven bk).2.trace =
        deployedNames bk.trace ++ ["Havven", "EtherNomin", "Court"] ∧
      linkOps (deploy_havven bk).2.trace = linkOps bk.trace) ∧
    (o1.receipt.success = true → o2.receipt.success = true → o3.receipt.success = true →
      o4.receipt.success = false →
      (deploy_havven bk).1 = .error (.stepFailed "HavvenEscrow") ∧
      deployedNames (deploy_havven bk).2.trace =
        deployedNames bk.trace ++ ["Havven", "EtherNomin", "Court", "HavvenEscrow"] ∧
      linkOps (deploy_havven bk).2.trace = linkOps bk.trace) := by
  obtain ⟨cOk, outs, tr⟩ := bk
  simp only at hc ho
  subst hc ho
  refine ⟨fun f1 => ?_, fun s1 f2 => ?_, fun s1 s2 f3 => ?_, fun s1 s2 s3 f4 => ?_⟩ <;>
    simp [deploy_havven, attempt_compile, attempt_deploy, transact, mine_txs,
          deployedNames, linkOps, *]

/-- Witness for C4 (amended): step 2 fails on bkFailNomin, only the first two steps
are submitted, no linking happens, and the error names EtherNomin. -/
theorem C4_amended_witness :
    (deploy_havven bkFailNomin).1 = .error (.stepFailed "EtherNomin") ∧
    deployedNames (deploy_havven bkFailNomin).2.trace =
      deployedNames bkFailNomin.trace ++ ["Havven", "EtherNomin"] ∧
    linkOps (deploy_havven bkFailNomin).2.trace = linkOps bkFailNomin.trace :=
  (C4_amended_halt_without_partial_instances bkFailNomin
    ⟨1, ⟨true, 10⟩⟩ ⟨2, ⟨false, 20⟩⟩ ⟨3, ⟨true, 30⟩⟩ ⟨4, ⟨true, 40⟩⟩
    [⟨0, ⟨true, 51⟩⟩, ⟨0, ⟨true, 52⟩⟩, ⟨0, ⟨true, 53⟩⟩] rfl rfl).2.1 rfl rfl

/-- C6: deployment steps execute strictly in the plan's declared order, and every
address referenced by a step's constructor arguments is the address of an
instance deployed by a strictly earlier step (here: EtherNomin references
Havven; Court references Havven and EtherNomin; HavvenEscrow references Havven
and EtherNomin). -/
theorem C6_ordering_invariant
    (bk : Backend) (o1 o2 o3 o4 l1 l2 l3 : StepOutcome) (rest : List StepOutcome)
    (hc : bk.compileOk = true) (htr : bk.trace = [])
    (ho : bk.outcomes = [o1, o2, o3, o4, l1, l2, l3] ++ rest)
    (h1 : o1.receipt.success = true) (h2 : o2.receipt.success = true)
    (h3 : o3.receipt.success = true) (h4 : o4.receipt.success = true)
    (hl1 : l1.receipt.success = true) (hl2 : l2.receipt.success = true)
    (hl3 : l3.receipt.success = true) :
    (deploy_havven bk).1.isOk = true ∧
    deployedNames (deploy_havven bk).2.trace = deployment_plan ∧
    depsAvailable [] (deploySteps (deploy_havven bk).2.trace) = true := by
  obtain ⟨cOk, outs, tr⟩ := bk
  simp only at hc htr ho
  subst hc htr ho
  simp [deploy_havven, attempt_compile, attempt_deploy, transact, mine_txs,
        h1, h2, h3, h4, hl1, hl2, hl3, deployedNames, deployment_plan,
        deploySteps, depsAvailable, addrArgs, Except.isOk, Except.toBool]

/-- Witness for C6 at the concrete all-success backend. -/
theorem C6_ordering_witness :
    (deploy_havven bkAllOk).1.isOk = true ∧
    deployedNames (deploy_havven bkAllOk).2.trace = deployment_plan ∧
    depsAvailable [] (deploySteps (deploy_havven bkAllOk).2.trace) = true :=
  C6_ordering_invariant bkAllOk
    ⟨1, ⟨true, 10⟩⟩ ⟨2, ⟨true, 20⟩⟩ ⟨3, ⟨true, 30⟩⟩ ⟨4, ⟨true, 40⟩⟩
    ⟨0, ⟨true, 51⟩⟩ ⟨0, ⟨true, 52⟩⟩ ⟨0, ⟨true, 53⟩⟩ []
    rfl rfl rfl rfl rfl rfl rfl rfl rfl rfl

/-- C3: the claim says every test unit in the suite takes exactly one checkpoint
before its body and restores it afterwards, so no unit's mutations are visible
to a later unit. Counterexample: TestERC20FeeToken defines no setUp/tearDown, so
running its mutating test_transfer body from chain state 0 takes no checkpoint,
restores nothing, and leaves the backend at chain state 1 — visible to the next
test unit. -/
theorem C3_counterexample_erc20_unit_not_isolated :
    (runUnit (erc20FeeTokenUnit transferBody) freshHarness).1.chain = 1 ∧
    freshHarness.chain = 0 ∧
    (runUnit (erc20FeeTokenUnit transferBody) freshHarness).1.snapsTaken = 0 ∧
    (runUnit (erc20FeeTokenUnit transferBody) freshHarness).1.restoresDone = 0 := by
  decide

/-- C3 (amended): test units of TestTokenState take exactly one checkpoint in
setUp and restore exactly that checkpoint in tearDown on every exit path of the
body (including failure), so their mutations are never visible to a later unit;
but test units of TestERC20FeeToken take no checkpoint and their chain-state
mutations remain visible after the unit finishes. -/
theorem C3_amended_isolation_only_for_tokenstate :
    (∀ (body : Nat → Nat × TOutcome) (s : HarnessState),
      (runUnit (tokenStateUnit body) s).1.chain = s.chain ∧
      (runUnit (tokenStateUnit body) s).1.snapsTaken = s.snapsTaken + 1 ∧
      (runUnit (tokenStateUnit body) s).1.restoresDone = s.restoresDone + 1 ∧
      (runUnit (tokenStateUnit body) s).1.snapshot = none) ∧
    (∀ (body : Nat → Nat × TOutcome) (s : HarnessState),
      (runUnit (erc20FeeTokenUnit body) s).1.chain = (body s.chain).1 ∧
      (runUnit (erc20FeeTokenUnit body) s).1.snapsTaken = s.snapsTaken ∧
      (runUnit (erc20FeeTokenUnit body) s).1.restoresDone = s.restoresDone) := by
  constructor <;> intro body s <;>
    simp [runUnit, tokenStateUnit, erc20FeeTokenUnit]

/-- C5: both rejection-assertion helpers accept exactly a raised error carrying
the backend's standardized rejection-by-program-logic signal — a "revert" marker
with code -32000 — and never a bare success nor an error of another class; in
particular a timeout-shaped error (no revert marker, or another code) is never
classified as a logic rejection, and a logic rejection is always accepted, on
both the read-only call path and the mutating submit path. -/
theorem C5_rejection_classification :
    (∀ (α : Type) (r : CallOutcome α),
      assertCallReverts r = true ↔
        ∃ e, r = .valueError e ∧ standardizedLogicRejection e = true) ∧
    (∀ r : CallOutcome Receipt,
      assertTransactionReverts r = true ↔
        ∃ e, r = .valueError e ∧ standardizedLogicRejection e = true) ∧
    assertTransactionReverts
      (.valueError ⟨"VM Exception while processing transaction: revert", -32000⟩) = true ∧
    assertCallReverts
      (.valueError (α := Val) ⟨"VM Exception while processing transaction: revert", -32000⟩) = true ∧
    assertTransactionReverts
      (.valueError ⟨"Transaction was not mined within 50 seconds", -32000⟩) = false ∧
    assertTransactionReverts
      (.valueError ⟨"Gateway timeout: revert not observed", -32603⟩) = false ∧
    assertCallReverts (.valueError (α := Val) ⟨"Method not found", -32601⟩) = false := by
  refine ⟨?_, ?_, by decide, by decide, by decide, by decide, by decide⟩
  · intro α r
    cases r <;> simp [assertCallReverts, standardizedLogicRejection]
  · intro r
    cases r <;> simp [assertTransactionReverts, standardizedLogicRejection]

/-- C7: every view operation of the facade is callable without a submitting
identity and returns the backend's decoded value directly (including the rebound
name attribute), while every mutating operation takes a submitting identity as
its first argument, submits the operation under that identity, blocks for the
finalized receipt via mine_tx, and returns exactly that receipt. -/
theorem C7_facade_views_and_mutators (c : Contract) (nL : String) (w : Chain)
    (sender acct acct2 frm : String) (v : Nat) :
    ((mkExternStateFeeTokenInterface c nL).owner w = w.viewFn c.address "owner" []) ∧
    ((mkExternStateFeeTokenInterface c nL).totalSupply w =
      w.viewFn c.address "totalSupply" []) ∧
    ((mkExternStateFeeTokenInterface c nL).state w = w.viewFn c.address "state" []) ∧
    ((mkExternStateFeeTokenInterface c nL).name.invoke c w =
      some (w.viewFn c.address "name" [])) ∧
    ((mkExternStateFeeTokenInterface c nL).symbol w = w.viewFn c.address "symbol" []) ∧
    ((mkExternStateFeeTokenInterface c nL).balanceOf acct w =
      w.viewFn c.address "balanceOf" [Arg.acct acct]) ∧
    ((mkExternStateFeeTokenInterface c nL).allowance acct acct2 w =
      w.viewFn c.address "allowance" [Arg.acct acct, Arg.acct acct2]) ∧
    ((mkExternStateFeeTokenInterface c nL).transferFeeRate w =
      w.viewFn c.address "transferFeeRate" []) ∧
    ((mkExternStateFeeTokenInterface c nL).feePool w = w.viewFn c.address "feePool" []) ∧
    ((mkExternStateFeeTokenInterface c nL).feeAuthority w =
      w.viewFn c.address "feeAuthority" []) ∧
    ((mkExternStateFeeTokenInterface c nL).transferFeeIncurred v w =
      w.viewFn c.address "transferFeeIncurred" [Arg.num v]) ∧
    ((mkExternStateFeeTokenInterface c nL).transferPlusFee v w =
      w.viewFn c.address "transferPlusFee" [Arg.num v]) ∧
    ((mkExternStateFeeTokenInterface c nL).priceToSpend v w =
      w.viewFn c.address "priceToSpend" [Arg.num v]) ∧
    (((mkExternStateFeeTokenInterface c nL).nominateOwner sender acct w).1 =
       w.receiptFor w.submitted.length ∧
     ((mkExternStateFeeTokenInterface c nL).nominateOwner sender acct w).2.submitted =
       w.submitted ++ [⟨c.address, "nominateOwner", [Arg.acct acct], sender⟩]) ∧
    (((mkExternStateFeeTokenInterface c nL).acceptOwnership sender w).1 =
       w.receiptFor w.submitted.length ∧
     ((mkExternStateFeeTokenInterface c nL).acceptOwnership sender w).2.submitted =
       w.submitted ++ [⟨c.address, "acceptOwnership", [], sender⟩]) ∧
    (((mkExternStateFeeTokenInterface c nL).setTransferFeeRate sender v w).1 =
       w.receiptFor w.submitted.length ∧
     ((mkExternStateFeeTokenInterface c nL).setTransferFeeRate sender v w).2.submitted =
       w.submitted ++ [⟨c.address, "setTransferFeeRate", [Arg.num v], sender⟩]) ∧
    (((mkExternStateFeeTokenInterface c nL).setFeeAuthority sender acct w).1 =
       w.receiptFor w.submitted.length ∧
     ((mkExternStateFeeTokenInterface c nL).setFeeAuthority sender acct w).2.submitted =
       w.submitted ++ [⟨c.address, "setFeeAuthority", [Arg.acct acct], sender⟩]) ∧
    (((mkExternStateFeeTokenInterface c nL).setState sender acct w).1 =
       w.receiptFor w.submitted.length ∧
     ((mkExternStateFeeTokenInterface c nL).setState sender acct w).2.submitted =
       w.submitted ++ [⟨c.address, "setState", [Arg.acct acct], sender⟩]) ∧
    (((mkExternStateFeeTokenInterface c nL).transfer sender acct v w).1 =
       w.receiptFor w.submitted.length ∧
     ((mkExternStateFeeTokenInterface c nL).transfer sender acct v w).2.submitted =
       w.submitted ++ [⟨c.address, "transfer", [Arg.acct acct, Arg.num v], sender⟩]) ∧
    (((mkExternStateFeeTokenInterface c nL).approve sender acct v w).1 =
       w.receiptFor w.submitted.length ∧
     ((mkExternStateFeeTokenInterface c nL).approve sender acct v w).2.submitted =
       w.submitted ++ [⟨c.address, "approve", [Arg.acct acct, Arg.num v], sender⟩]) ∧
    (((mkExternStateFeeTokenInterface c nL).transferFrom sender frm acct v w).1 =
       w.receiptFor w.submitted.length ∧
     ((mkExternStateFeeTokenInterface c nL).transferFrom sender frm acct v w).2.submitted =
       w.submitted ++
         [⟨c.address, "transferFrom", [Arg.acct frm, Arg.acct acct, Arg.num v], sender⟩]) ∧
    (((mkExternStateFeeTokenInterface c nL).withdrawFee sender acct v w).1 =
       w.receiptFor w.submitted.length ∧
     ((mkExternStateFeeTokenInterface c nL).withdrawFee sender acct v w).2.submitted =
       w.submitted ++ [⟨c.address, "withdrawFee", [Arg.acct acct, Arg.num v], sender⟩]) ∧
    (((mkExternStateFeeTokenInterface c nL).donateToFeePool sender v w).1 =
       w.receiptFor w.submitted.length ∧
     ((mkExternStateFeeTokenInterface c nL).donateToFeePool sender v w).2.submitted =
       w.submitted ++ [⟨c.address, "donateToFeePool", [Arg.num v], sender⟩]) := by
  simp [mkExternStateFeeTokenInterface, facadeTransact, mine_tx, NameAttr.invoke]

/-- C9: after construction the facade's name attribute is the rebound name() view
lambda, not the label string passed to the constructor, and every mutating
operation passes that callable (not the label) as the diagnostic name argument
to mine_tx when invoked. -/
theorem C9_name_attribute_is_rebound_lambda (c : Contract) (nL : String) (w : Chain)
    (sender acct frm : String) (v : Nat) :
    (mkExternStateFeeTokenInterface c nL).name = NameAttr.nameViewLambda ∧
    (mkExternStateFeeTokenInterface c nL).name ≠ NameAttr.label nL ∧
    ((mkExternStateFeeTokenInterface c nL).nominateOwner sender acct w).2.mined =
      w.mined ++ [⟨w.receiptFor w.submitted.length, "nominateOwner",
                   NameAttr.nameViewLambda⟩] ∧
    ((mkExternStateFeeTokenInterface c nL).acceptOwnership sender w).2.mined =
      w.mined ++ [⟨w.receiptFor w.submitted.length, "acceptOwnership",
                   NameAttr.nameViewLambda⟩] ∧
    ((mkExternStateFeeTokenInterface c nL).setTransferFeeRate sender v w).2.mined =
      w.mined ++ [⟨w.receiptFor w.submitted.length, "setTransferFeeRate",
                   NameAttr.nameViewLambda⟩] ∧
    ((mkExternStateFeeTokenInterface c nL).setFeeAuthority sender acct w).2.mined =
      w.mined ++ [⟨w.receiptFor w.submitted.length, "setFeeAuthority",
                   NameAttr.nameViewLambda⟩] ∧
    ((mkExternStateFeeTokenInterface c nL).setState sender acct w).2.mined =
      w.mined ++ [⟨w.receiptFor w.submitted.length, "setState",
                   NameAttr.nameViewLambda⟩] ∧
    ((mkExternStateFeeTokenInterface c nL).transfer sender acct v w).2.mined =
      w.mined ++ [⟨w.receiptFor w.submitted.length, "transfer",
                   NameAttr.nameViewLambda⟩] ∧
    ((mkExternStateFeeTokenInterface c nL).approve sender acct v w).2.mined =
      w.mined ++ [⟨w.receiptFor w.submitted.length, "approve",
                   NameAttr.nameViewLambda⟩] ∧
    ((mkExternStateFeeTokenInterface c nL).transferFrom sender frm acct v w).2.mined =
      w.mined ++ [⟨w.receiptFor w.submitted.length, "transferFrom",
                   NameAttr.nameViewLambda⟩] ∧
    ((mkExternStateFeeTokenInterface c nL).withdrawFee sender acct v w).2.mined =
      w.mined ++ [⟨w.receiptFor w.submitted.length, "withdrawFee",
                   NameAttr.nameViewLambda⟩] ∧
    ((mkExternStateFeeTokenInterface c nL).donateToFeePool sender v w).2.mined =
      w.mined ++ [⟨w.receiptFor w.submitted.length, "donateToFeePool",
                   NameAttr.nameViewLambda⟩] := by
  simp [mkExternStateFeeTokenInterface, facadeTransact, mine_tx]

/-- C8: the top-level runner's process exit status is zero iff the whole run
succeeded: ganache launched, no fatal error propagated from the suite run, and
the suite result's wasSuccessful() flag is true; any test failure or fatal error
yields a non-zero status. -/
theorem C8_exit_zero_iff_suite_successful (cfg : RunConfig) :
    exitStatus (run_tests_main cfg) = 0 ↔
      cfg.ganacheLaunchOk = true ∧
      cfg.runSuite (buildSuite cfg.settings cfg.loadTests) = .ok true := by
  unfold run_tests_main
  cases hg : cfg.ganacheLaunchOk with
  | false => simp [exitStatus]
  | true =>
    cases hr : cfg.runSuite (buildSuite cfg.settings cfg.loadTests) with
    | error e => simp [exitStatus, hr]
    | ok ws => cases ws <;> simp [exitStatus, hr]

/-- Membership in the suite-assembly fold: a test is in the folded suite iff it is
in the accumulator or some truthy settings entry loads it. -/
theorem mem_buildSuite_foldl (settings : List (String × Bool))
    (load : String → List Test) (acc : List Test) (t : Test) :
    t ∈ settings.foldl
        (fun suite item => if item.2 then suite ++ load item.1 else suite) acc ↔
      t ∈ acc ∨ ∃ p ∈ settings, p.2 = true ∧ t ∈ load p.1 := by
  induction settings generalizing acc with
  | nil => simp
  | cons hd tl ih =>
    cases h2 : hd.2 <;>
      simp [List.foldl_cons, h2, ih, List.mem_append, or_assoc]

/-- C10: the assembled suite contains a test iff the settings mapping has a truthy
entry for the module the test was loaded from; modules with falsy entries
contribute no tests to the run. -/
theorem C10_suite_contains_iff_truthy (settings : List (String × Bool))
    (load : String → List Test)
    (htag : ∀ m t, t ∈ load m → t.moduleName = m) (t : Test) :
    t ∈ buildSuite settings load ↔
      (t.moduleName, true) ∈ settings ∧ t ∈ load t.moduleName := by
  rw [buildSuite, mem_buildSuite_foldl]
  simp only [List.not_mem_nil, false_or]
  constructor
  · rintro ⟨⟨m, b⟩, hp, hb, ht⟩
    have hm := htag m t ht
    subst hm
    cases hb
    exact ⟨hp, ht⟩
  · rintro ⟨hp, ht⟩
    exact ⟨(t.moduleName, true), hp, rfl, ht⟩

/-- Witness for C10 at a concrete settings mapping with one truthy and one falsy
entry. -/
theorem C10_suite_witness :
    ((⟨"test_Owned", "test_constructor"⟩ : Test) ∈
        buildSuite [("test_Owned", true), ("test_ERC20FeeToken", false)]
          (fun m => [⟨m, "test_constructor"⟩]) ↔
      ("test_Owned", true) ∈ [("test_Owned", true), ("test_ERC20FeeToken", false)] ∧
      (⟨"test_Owned", "test_constructor"⟩ : Test) ∈
        [(⟨"test_Owned", "test_constructor"⟩ : Test)]) :=
  C10_suite_contains_iff_truthy
    [("test_Owned", true), ("test_ERC20FeeToken", false)]
    (fun m => [⟨m, "test_constructor"⟩])
    (fun m t ht => by
      simp only [List.mem_singleton] at ht
      subst ht
      rfl)
    ⟨"test_Owned", "test_constructor"⟩

end Synthetix
